import Mathlib

/-!
Verification of the zenlink asset ledger and dex pricing core of canvas-node.

The asset ledger is embedded from `src/zenlink/assets/src/lib.rs`.  The dex
pallet's implementation file is not part of the repository snapshot (only its
unit tests, `src/zenlink/dex/src/tests.rs`, are), so the dex pricing and path
functions are modelled from the specification and pinned against the values
asserted by those unit tests.
-/

namespace Zenlink

/-! ## Dex pricing primitives

Modelled from the spec, §4.3.2.  The exchange-fee constants are left as
parameters here; the concrete instances below fix them to the values the
repository's unit tests demand. -/

/-- Modelled from the spec: `get_target_amount` of the dex pallet (its source
file `zenlink/dex/src/lib.rs` is absent from the snapshot).  Following
§4.3.2: return `0` when `dx == 0 || s == 0 || t == 0`, otherwise
`dy = dx_eff * t / (s * fee_den + dx_eff)` with
`dx_eff = dx * (fee_den - fee_num)`, in integer floor division. -/
def get_target_amount_fee (feeNum feeDen s t dx : Nat) : Nat :=
  if dx = 0 ∨ s = 0 ∨ t = 0 then 0
  else dx * (feeDen - feeNum) * t / (s * feeDen + dx * (feeDen - feeNum))

/-- Modelled from the spec: `get_supply_amount` of the dex pallet (source file
absent from the snapshot).  Following §4.3.2: return `0` when
`dy == 0 || s == 0 || t == 0 || dy >= t`, otherwise
`dx = s * dy * fee_den / ((t - dy) * (fee_den - fee_num)) + 1`. -/
def get_supply_amount_fee (feeNum feeDen s t dy : Nat) : Nat :=
  if dy = 0 ∨ s = 0 ∨ t = 0 ∨ t ≤ dy then 0
  else s * dy * feeDen / ((t - dy) * (feeDen - feeNum)) + 1

/-- Modelled from the spec: the dex pallet's `get_target_amount` with the
exchange-fee constants `(fee_num, fee_den) = (1, 100)` pinned by the unit
tests of `src/zenlink/dex/src/tests.rs` (`get_target_amount_work` demands
`get_target_amount(10000, 20000, 1000) = 1801`, which holds for fee `1/100`
and for no other of the candidate fee conventions; all other pricing test
values agree). -/
def get_target_amount : Nat → Nat → Nat → Nat := get_target_amount_fee 1 100

/-- Modelled from the spec: the dex pallet's `get_supply_amount`, with the
exchange-fee constants `(fee_num, fee_den) = (1, 100)` pinned by the unit
tests (`get_supply_amount_work`). -/
def get_supply_amount : Nat → Nat → Nat → Nat := get_supply_amount_fee 1 100

/-! ## Dex pool store and multi-hop paths

Modelled from the spec, §3 (TradingPair, PoolReserves, TradingPathAllowed),
§4.2 (get_liquidity) and §4.3.3 (multi-hop paths), pinned against the unit
tests `get_liquidity_work`, `get_target_amounts_work` and
`get_supply_amounts_work`. -/

/-- Asset identifiers: an arithmetic id type in the source (`T::AssetId`). -/
abbrev AssetId := Nat

/-- Modelled from the spec: the canonical form of a trading pair orders the
two ids by the natural ordering of `AssetId` (§3, TradingPair). -/
def canonical (x y : AssetId) : AssetId × AssetId :=
  if x ≤ y then (x, y) else (y, x)

/-- Modelled from the spec: the dex pallet's pool store.  `poolReserves` is
the `LiquidityPool` storage map (absent key means `(0, 0)`), keyed by
canonical pairs; `tradingPairAllowed` is the admission set of §3. -/
structure DexState where
  poolReserves : AssetId × AssetId → Nat × Nat
  tradingPairAllowed : AssetId × AssetId → Bool

/-- Modelled from the spec: `get_liquidity(x, y)` looks up the canonical
pair; if `x` is the smaller id it returns `(r_a, r_b)`, else `(r_b, r_a)`
(§4.2), as `get_liquidity_work` asserts. -/
def get_liquidity (st : DexState) (x y : AssetId) : Nat × Nat :=
  if x ≤ y then st.poolReserves (canonical x y)
  else ((st.poolReserves (canonical x y)).2, (st.poolReserves (canonical x y)).1)

/-- The dex pallet's error type, from the spec's error taxonomy (§7) and the
variants the unit tests exercise. -/
inductive DexError
  | InvalidTradingPathLength
  | TradingPairNotAllowed
  | InsufficientLiquidity
  | ZeroTargetAmount
  | ZeroSupplyAmount
  | InsufficientTargetAmount
  | ExcessiveSupplyAmount
  | ExceedPriceImpactLimit
  | InvalidLiquidityIncrement
  | InvalidCurrencyId
deriving DecidableEq

/-- Modelled from the spec: the hop loop of `get_target_amounts` (§4.3.3).
For each hop: admission check, zero-reserve check, pricing, zero-output
check, then the price-impact gate.  Spec §9 records that the source's
impact check is the strict comparison `target_amount / target_reserve >
limit`; the boundary case in `get_supply_amounts_work` (ratio exactly
`1/2` admitted at limit `50/100`) confirms the strict reading, so the
strict comparison is used here. -/
def target_hops (st : DexState) (limit : Option ℚ) :
    AssetId → List AssetId → Nat → Except DexError (List Nat)
  | _, [], amountIn => .ok [amountIn]
  | cur, next :: rest, amountIn =>
    if st.tradingPairAllowed (canonical cur next) = false then
      .error .TradingPairNotAllowed
    else if (get_liquidity st cur next).1 = 0 ∨ (get_liquidity st cur next).2 = 0 then
      .error .InsufficientLiquidity
    else if get_target_amount (get_liquidity st cur next).1
        (get_liquidity st cur next).2 amountIn = 0 then
      .error .ZeroTargetAmount
    else
      match limit with
      | some l =>
        if l < ((get_target_amount (get_liquidity st cur next).1
            (get_liquidity st cur next).2 amountIn : Nat) : ℚ)
            / ((get_liquidity st cur next).2 : ℚ) then
          .error .ExceedPriceImpactLimit
        else
          Except.map (fun amts => amountIn :: amts)
            (target_hops st limit next rest
              (get_target_amount (get_liquidity st cur next).1
                (get_liquidity st cur next).2 amountIn))
      | none =>
        Except.map (fun amts => amountIn :: amts)
          (target_hops st limit next rest
            (get_target_amount (get_liquidity st cur next).1
              (get_liquidity st cur next).2 amountIn))

/-- Modelled from the spec: `get_target_amounts(path, supply_in,
impact_limit?)` with the length bounds `2 ≤ len(path) ≤ MAX_HOPS = 3`
(§4.3.3), as `get_target_amounts_work` asserts. -/
def get_target_amounts (st : DexState) (path : List AssetId) (supplyIn : Nat)
    (limit : Option ℚ) : Except DexError (List Nat) :=
  if path.length < 2 ∨ 3 < path.length then .error .InvalidTradingPathLength
  else
    match path with
    | [] => .error .InvalidTradingPathLength
    | x :: rest => target_hops st limit x rest supplyIn

/-- Modelled from the spec: the backward hop loop of `get_supply_amounts`
(§4.3.3): `amounts[len-1] = target_out` and, for `i` from `len-1` down to
`1`, the checks and `amounts[i-1] = get_supply_amount(s, t, amounts[i])`,
the impact gate applied against the target side of the hop; the strict
comparison is used for the reason given at `target_hops`. -/
def supply_hops (st : DexState) (limit : Option ℚ) :
    List AssetId → Nat → Except DexError (List Nat)
  | [], _ => .error .InvalidTradingPathLength
  | [_], targetOut => .ok [targetOut]
  | x :: y :: rest, targetOut =>
    match supply_hops st limit (y :: rest) targetOut with
    | .error e => .error e
    | .ok amts =>
      if st.tradingPairAllowed (canonical x y) = false then
        .error .TradingPairNotAllowed
      else if (get_liquidity st x y).1 = 0 ∨ (get_liquidity st x y).2 = 0 then
        .error .InsufficientLiquidity
      else if get_supply_amount (get_liquidity st x y).1 (get_liquidity st x y).2
          (amts.headD 0) = 0 then
        .error .ZeroSupplyAmount
      else
        match limit with
        | some l =>
          if l < ((amts.headD 0 : Nat) : ℚ) / ((get_liquidity st x y).2 : ℚ) then
            .error .ExceedPriceImpactLimit
          else
            .ok (get_supply_amount (get_liquidity st x y).1
              (get_liquidity st x y).2 (amts.headD 0) :: amts)
        | none =>
          .ok (get_supply_amount (get_liquidity st x y).1
            (get_liquidity st x y).2 (amts.headD 0) :: amts)

/-- Modelled from the spec: `get_supply_amounts(path, target_out,
impact_limit?)` with the same length bounds (§4.3.3), as
`get_supply_amounts_work` asserts. -/
def get_supply_amounts (st : DexState) (path : List AssetId) (targetOut : Nat)
    (limit : Option ℚ) : Except DexError (List Nat) :=
  if path.length < 2 ∨ 3 < path.length then .error .InvalidTradingPathLength
  else supply_hops st limit path targetOut

/-- Modelled from the spec: the `(use_a, use_b, shares_minted)` computation
of `add_liquidity` (§4.3.5).  First provision (`total_shares == 0`) uses
`(max_a, max_b)` and mints `max_a` shares; a subsequent provision computes
`ratio_a = max_a / r_a` and `ratio_b = max_b / r_b` in rational arithmetic
and scales `(r_a, r_b, total_shares)` by the smaller ratio, flooring.  A
zero `use_a`, `use_b` or `shares_minted` fails `InvalidLiquidityIncrement`.
Pinned by `add_liquidity_work`. -/
def add_liquidity_calc (rA rB totalShares maxA maxB : Nat) :
    Except DexError (Nat × Nat × Nat) :=
  if totalShares = 0 then
    if maxA = 0 ∨ maxB = 0 then .error .InvalidLiquidityIncrement
    else .ok (maxA, maxB, maxA)
  else
    let ratioA : ℚ := (maxA : ℚ) / (rA : ℚ)
    let ratioB : ℚ := (maxB : ℚ) / (rB : ℚ)
    let r : ℚ := if ratioA ≤ ratioB then ratioA else ratioB
    let useA : Nat := (⌊r * (rA : ℚ)⌋).toNat
    let useB : Nat := (⌊r * (rB : ℚ)⌋).toNat
    let minted : Nat := (⌊r * (totalShares : ℚ)⌋).toNat
    if useA = 0 ∨ useB = 0 ∨ minted = 0 then .error .InvalidLiquidityIncrement
    else .ok (useA, useB, minted)

/-- The pool fixture of the spec's scenarios S3 and S7 and of
`get_target_amounts_work`: asset ids `1 = AUSD`, `2 = DOT`, `3 = XBTC`,
`4 = ZLK`; reserves `AUSD/DOT = (50000, 10000)` and
`AUSD/XBTC = (100000, 10)`; the pairs among `AUSD`, `DOT`, `XBTC` are
admitted, pairs involving `ZLK` are not. -/
def stS7 : DexState where
  poolReserves := fun p =>
    if p = (1, 2) then (50000, 10000)
    else if p = (1, 3) then (100000, 10)
    else (0, 0)
  tradingPairAllowed := fun p => p == (1, 2) || p == (1, 3) || p == (2, 3)

/-! ## Asset ledger

Embedded from `src/zenlink/assets/src/lib.rs`.  The balance type
`T::TokenBalance` is instantiated at `u128` by the runtime (spec §9:
"balances are 128-bit unsigned"), so token amounts are naturals that the
source's `saturating_add` caps at `2^128 - 1`; `saturating_sub` on naturals
is truncated subtraction, which `Nat.sub` already is.  Storage maps are
total functions with default `0` (`None` for `AssetInfos`), matching the
substrate storage semantics.  A failing dispatchable writes nothing (every
`ensure!`/`checked_sub` failure in the source occurs before the first
storage mutation), so operations are `Except`-valued state transformers. -/

/-- The error enum of `decl_error!` in `src/zenlink/assets/src/lib.rs`. -/
inductive AssetsError
  | AmountZero
  | BalanceLow
  | BalanceZero
  | AllowanceLow
  | AssetNotExists
deriving DecidableEq

/-- `AssetInfo` of `src/zenlink/assets/src/lib.rs`: a 16-byte name, an
8-byte symbol and a decimals exponent (bytes as naturals). -/
structure AssetInfo where
  name : List Nat
  symbol : List Nat
  decimals : Nat
deriving DecidableEq

/-- The storage of the assets module (`decl_storage!`): asset metadata,
per-(asset, account) balances, the next free asset id, total supplies, and
per-(asset, owner, spender) allowances.  Account ids are naturals. -/
structure Ledger where
  assetInfos : Nat → Option AssetInfo
  balances : Nat → Nat → Nat
  nextAssetId : Nat
  totalSupply : Nat → Nat
  allowances : Nat → Nat → Nat → Nat

/-- `u128::MAX = 2^128 - 1`, the saturation bound of the balance type. -/
def MAXBAL : Nat := 340282366920938463463374607431768211455

/-- `u128::saturating_add` on the natural-number representation. -/
def satAdd (x y : Nat) : Nat :=
  if x + y ≤ MAXBAL then x + y else MAXBAL

/-- Point update of the three-level allowances map at
`(id, owner, spender)`, as `<Allowances<T>>::mutate` performs. -/
def setAllowance (al : Nat → Nat → Nat → Nat) (id owner spender v : Nat) :
    Nat → Nat → Nat → Nat :=
  Function.update al id
    (Function.update (al id) owner (Function.update (al id owner) spender v))

/-- `inner_issue` of `src/zenlink/assets/src/lib.rs`: allocate the next
asset id, credit the whole initial supply to the owner, record the total
supply and the metadata; returns the new state and the allocated id. -/
def inner_issue (st : Ledger) (owner total : Nat) (info : AssetInfo) :
    Ledger × Nat :=
  ({ st with
      nextAssetId := st.nextAssetId + 1,
      balances := Function.update st.balances st.nextAssetId
        (Function.update (st.balances st.nextAssetId) owner total),
      totalSupply := Function.update st.totalSupply st.nextAssetId total,
      assetInfos := Function.update st.assetInfos st.nextAssetId (some info) },
    st.nextAssetId)

/-- `inner_transfer` of `src/zenlink/assets/src/lib.rs`: `AmountZero` when
`amount == 0`, `BalanceLow` when the owner's balance is below `amount`;
otherwise the owner's balance is set to `owner_balance - amount` and then
the target's balance is mutated to `balance.saturating_add(amount)` —
reading the target balance after the first write, which is what makes a
self-transfer net out. -/
def inner_transfer (st : Ledger) (id owner target amount : Nat) :
    Except AssetsError Ledger :=
  if amount = 0 then .error .AmountZero
  else if st.balances id owner < amount then .error .BalanceLow
  else
    .ok { st with
      balances := Function.update st.balances id
        (Function.update
          (Function.update (st.balances id) owner (st.balances id owner - amount))
          target
          (satAdd
            (Function.update (st.balances id) owner (st.balances id owner - amount)
              target)
            amount)) }

/-- `inner_approve` of `src/zenlink/assets/src/lib.rs`: unconditionally
overwrite the allowance of `(id, owner, spender)` with `amount`. -/
def inner_approve (st : Ledger) (id owner spender amount : Nat) :
    Except AssetsError Ledger :=
  .ok { st with allowances := setAllowance st.allowances id owner spender amount }

/-- `inner_transfer_from` of `src/zenlink/assets/src/lib.rs`: the allowance
is `checked_sub`-checked first (`AllowanceLow` when it is below `amount`),
then the inner transfer runs, and only on its success is the allowance
written down to the pre-computed `allowance - amount`. -/
def inner_transfer_from (st : Ledger) (id owner spender target amount : Nat) :
    Except AssetsError Ledger :=
  if st.allowances id owner spender < amount then .error .AllowanceLow
  else
    match inner_transfer st id owner target amount with
    | .error e => .error e
    | .ok st1 =>
      .ok { st1 with
        allowances := setAllowance st1.allowances id owner spender
          (st.allowances id owner spender - amount) }

/-- `inner_mint` of `src/zenlink/assets/src/lib.rs`: `AssetNotExists` when
the asset has no metadata; otherwise both the owner's balance and the total
supply are `saturating_add`-incremented by `amount`. -/
def inner_mint (st : Ledger) (id owner amount : Nat) :
    Except AssetsError Ledger :=
  match st.assetInfos id with
  | none => .error .AssetNotExists
  | some _ =>
    .ok { st with
      balances := Function.update st.balances id
        (Function.update (st.balances id) owner
          (satAdd (st.balances id owner) amount)),
      totalSupply := Function.update st.totalSupply id
        (satAdd (st.totalSupply id) amount) }

/-- `inner_burn` of `src/zenlink/assets/src/lib.rs`: `AssetNotExists` when
the asset has no metadata, `BalanceLow` when the `checked_sub` of the
owner's balance fails; otherwise the balance is decremented by `amount` and
the supply is `saturating_sub`-decremented. -/
def inner_burn (st : Ledger) (id owner amount : Nat) :
    Except AssetsError Ledger :=
  match st.assetInfos id with
  | none => .error .AssetNotExists
  | some _ =>
    if st.balances id owner < amount then .error .BalanceLow
    else
      .ok { st with
        balances := Function.update st.balances id
          (Function.update (st.balances id) owner (st.balances id owner - amount)),
        totalSupply := Function.update st.totalSupply id
          (st.totalSupply id - amount) }

/-- The supply-conservation invariant of spec §8 for one asset, relative to
a finite set of accounts carrying all of the asset's balances. -/
def conserved (st : Ledger) (a : Nat) (S : Finset Nat) : Prop :=
  st.totalSupply a = ∑ x ∈ S, st.balances a x

/-- Extract the success state of a ledger operation, with a default for the
error case (used to state closed facts about concrete runs). -/
def okOr (d : Ledger) (r : Except AssetsError Ledger) : Ledger :=
  match r with
  | .ok st => st
  | .error _ => d

/-- Whether a ledger operation succeeded. -/
def isOkB (r : Except AssetsError Ledger) : Bool :=
  match r with
  | .ok _ => true
  | .error _ => false

/-- A small concrete ledger used by witnesses: asset `0` exists with supply
`10`, all of it held by account `0`; every allowance is `5`. -/
def stW : Ledger where
  assetInfos := fun a => if a = 0 then some ⟨[], [], 0⟩ else none
  balances := fun a x => if a = 0 ∧ x = 0 then 10 else 0
  nextAssetId := 1
  totalSupply := fun a => if a = 0 then 10 else 0
  allowances := fun _ _ _ => 5

/-- A ledger at the saturation bound: asset `0` exists, its whole supply
`2^128 - 1` is held by account `0`, and the conservation invariant holds. -/
def stC4 : Ledger where
  assetInfos := fun a => if a = 0 then some ⟨[], [], 0⟩ else none
  balances := fun a x => if a = 0 ∧ x = 0 then MAXBAL else 0
  nextAssetId := 1
  totalSupply := fun a => if a = 0 then MAXBAL else 0
  allowances := fun _ _ _ => 0

/-- A ledger where account `1` already holds `2^128 - 1` of asset `0` and
account `0` holds `1` (reachable via a saturating mint). -/
def stC8 : Ledger where
  assetInfos := fun a => if a = 0 then some ⟨[], [], 0⟩ else none
  balances := fun a x =>
    if a = 0 ∧ x = 0 then 1 else if a = 0 ∧ x = 1 then MAXBAL else 0
  nextAssetId := 1
  totalSupply := fun a => if a = 0 then MAXBAL else 0
  allowances := fun _ _ _ => 0

end Zenlink

namespace Zenlink

/-! ## Claims C1 - C3 -/

/-- C1 (counterexample): the claim fixes the fee constants at
`fee_num = 3`, `fee_den = 1000`.  Under those constants the claimed formula
yields `1813` at `(s, t, dx) = (10000, 20000, 1000)`, but the unit test
`get_target_amount_work` of the repository asserts that
`get_target_amount(10000, 20000, 1000) = 1801` — the value produced by fee
`1/100`.  So the claim, as stated, is false at this input. -/
theorem c1_fee_counterexample :
    get_target_amount_fee 3 1000 10000 20000 1000 = 1813 ∧
    1000 * (1000 - 3) * 20000 / (10000 * 1000 + 1000 * (1000 - 3)) = 1813 ∧
    get_target_amount 10000 20000 1000 = 1801 ∧
    get_target_amount_fee 3 1000 10000 20000 1000 ≠ get_target_amount 10000 20000 1000 := by
  refine ⟨by decide, by decide, by decide, by decide⟩

/-- C1 (amended): for all reserves `s`, `t` and input `dx`,
`get_target_amount (s, t, dx)` returns `0` when `dx = 0` or `s = 0` or
`t = 0`, and otherwise returns `⌊dx_eff * t / (s * fee_den + dx_eff)⌋` with
`dx_eff = dx * (fee_den - fee_num)` — where the fee constants are
`fee_num = 1`, `fee_den = 100` (1% taken from the input side), the values
pinned by the repository's unit tests. -/
theorem c1_target_amount_formula (s t dx : Nat) :
    get_target_amount s t dx =
      if dx = 0 ∨ s = 0 ∨ t = 0 then 0
      else dx * 99 * t / (s * 100 + dx * 99) := by
  unfold get_target_amount get_target_amount_fee
  norm_num

/-- C1 witness: the amended formula evaluated at a concrete input. -/
theorem c1_target_amount_formula_witness :
    get_target_amount 3 5 7 =
      if (7 : Nat) = 0 ∨ (3 : Nat) = 0 ∨ (5 : Nat) = 0 then 0
      else 7 * 99 * 5 / (3 * 100 + 7 * 99) :=
  c1_target_amount_formula 3 5 7

/-- C2: the spec's concrete scenarios S1 and S2 on reserves
`(s, t) = (10000, 20000)`: `get_target_amount 10000 20000 1000 = 1801`,
`get_supply_amount 10000 20000 9949 = 9999`, and
`get_target_amount 10000 20000 9999 = 9949`, exactly as the unit tests
`get_target_amount_work` and `get_supply_amount_work` assert. -/
theorem c2_concrete_scenarios :
    get_target_amount 10000 20000 1000 = 1801 ∧
    get_supply_amount 10000 20000 9949 = 9999 ∧
    get_target_amount 10000 20000 9999 = 9949 := by
  refine ⟨by decide, by decide, by decide⟩

/-- C3 (counterexample): the claim quantifies over every pair of reserves,
including `s = 0`.  At `(s, t, dy) = (0, 2, 1)` we have `0 < dy < t`, but
`get_supply_amount 0 2 1 = 0` (zero-reserve guard) and then
`get_target_amount 0 2 0 = 0 < 1 = dy`, so the claimed round-trip bound
fails. -/
theorem c3_zero_reserve_counterexample :
    0 < (1 : Nat) ∧ (1 : Nat) < 2 ∧
    get_target_amount 0 2 (get_supply_amount 0 2 1) < 1 := by
  refine ⟨by decide, by decide, by decide⟩

/-- C3 (amended): for every positive supply reserve `s` and every `dy` with
`0 < dy < t`, `get_target_amount s t (get_supply_amount s t dy) ≥ dy`: the
round trip through the two pricing primitives never delivers less than the
requested target amount. -/
theorem c3_pricing_inverse (s t dy : Nat) (hs : 0 < s) (hdy : 0 < dy)
    (hdyt : dy < t) :
    dy ≤ get_target_amount s t (get_supply_amount s t dy) := by
  have ht : 0 < t := Nat.lt_of_le_of_lt (Nat.zero_le dy) hdyt
  have hu : 0 < t - dy := Nat.sub_pos_of_lt hdyt
  have hD : 0 < (t - dy) * (100 - 1) := Nat.mul_pos hu (by norm_num)
  have hsupply : get_supply_amount s t dy
      = s * dy * 100 / ((t - dy) * (100 - 1)) + 1 := by
    unfold get_supply_amount get_supply_amount_fee
    have hcond : ¬(dy = 0 ∨ s = 0 ∨ t = 0 ∨ t ≤ dy) := by omega
    rw [if_neg hcond]
  rw [hsupply]
  set dx := s * dy * 100 / ((t - dy) * (100 - 1)) + 1 with hdx
  have hdxpos : 0 < dx := Nat.succ_pos _
  have key : s * dy * 100 < dx * ((t - dy) * (100 - 1)) := by
    have h1 : ((t - dy) * (100 - 1)) * (s * dy * 100 / ((t - dy) * (100 - 1)))
        + s * dy * 100 % ((t - dy) * (100 - 1)) = s * dy * 100 :=
      Nat.div_add_mod _ _
    have h2 : s * dy * 100 % ((t - dy) * (100 - 1)) < (t - dy) * (100 - 1) :=
      Nat.mod_lt _ hD
    have h3 : dx * ((t - dy) * (100 - 1))
        = ((t - dy) * (100 - 1)) * (s * dy * 100 / ((t - dy) * (100 - 1)))
          + (t - dy) * (100 - 1) := by
      rw [hdx]; ring
    rw [h3]
    linarith [h1, h2]
  have hguard : ¬(dx = 0 ∨ s = 0 ∨ t = 0) := by omega
  have htgt : get_target_amount s t dx
      = dx * (100 - 1) * t / (s * 100 + dx * (100 - 1)) := by
    unfold get_target_amount get_target_amount_fee
    rw [if_neg hguard]
  rw [htgt]
  have hden : 0 < s * 100 + dx * (100 - 1) :=
    Nat.lt_of_lt_of_le (Nat.mul_pos hs (by norm_num)) (Nat.le_add_right _ _)
  rw [Nat.le_div_iff_mul_le hden]
  have ht' : t - dy + dy = t := Nat.sub_add_cancel (le_of_lt hdyt)
  calc dy * (s * 100 + dx * (100 - 1))
      = s * dy * 100 + dx * (100 - 1) * dy := by ring
    _ ≤ dx * ((t - dy) * (100 - 1)) + dx * (100 - 1) * dy :=
        Nat.add_le_add_right (le_of_lt key) _
    _ = dx * (100 - 1) * (t - dy + dy) := by ring
    _ = dx * (100 - 1) * t := by rw [ht']

/-- C3 witness: the round-trip bound at the spec's own S2 values. -/
theorem c3_pricing_inverse_witness :
    9949 ≤ get_target_amount 10000 20000 (get_supply_amount 10000 20000 9949) :=
  c3_pricing_inverse 10000 20000 9949 (by decide) (by decide) (by decide)

/-! ## Claims C5 and C6 -/

/-- C5 (counterexample): the claim states the hop fails exactly when the
output over the target reserve is greater than **or equal to** the limit.
The unit test `get_supply_amounts_work` exercises the boundary: on reserves
`AUSD/DOT = (50000, 10000)`, `get_supply_amounts([DOT, AUSD], 25000,
limit = 50/100)` has hop ratio `25000 / 50000 = 1/2`, equal to the limit —
yet the test demands success `[10102, 25000]`.  So the comparison is
strict, and the claim's non-strict reading is false at this input. -/
theorem c5_nonstrict_counterexample :
    get_supply_amounts stS7 [2, 1] 25000 (some ((50 : ℚ)/100)) = .ok [10102, 25000] ∧
    (50 : ℚ)/100 ≤ ((25000 : Nat) : ℚ) / ((50000 : Nat) : ℚ) := by
  constructor
  · have h1 : get_liquidity stS7 2 1 = (10000, 50000) := by decide
    have h2 : get_supply_amount 10000 50000 25000 = 10102 := by decide
    have h3 : stS7.tradingPairAllowed (canonical 2 1) = true := by decide
    simp only [get_supply_amounts, supply_hops, h1, h3, List.length_cons,
      List.length_nil, List.headD]
    norm_num [h2]
  · norm_num

/-- C5 (amended): when an `impact_limit` is supplied to
`get_target_amounts` or `get_supply_amounts`, a hop fails with
`ExceedPriceImpactLimit` exactly when the hop's output amount divided by the
target-side reserve is **strictly greater** than `impact_limit` (in rational
arithmetic); concretely, on reserves `AUSD/DOT = (50000, 10000)`,
`get_target_amounts([DOT, AUSD], 10000)` with limit `49/100` fails
`ExceedPriceImpactLimit` and with limit `50/100` succeeds with
`[10000, 24874]`. -/
theorem c5_price_impact_gate :
    (∀ (st : DexState) (x y : AssetId) (dx : Nat) (l : ℚ) (s t : Nat),
      get_liquidity st x y = (s, t) →
      st.tradingPairAllowed (canonical x y) = true →
      s ≠ 0 → t ≠ 0 → get_target_amount s t dx ≠ 0 →
      (get_target_amounts st [x, y] dx (some l) = .error .ExceedPriceImpactLimit
        ↔ l < ((get_target_amount s t dx : Nat) : ℚ) / (t : ℚ))) ∧
    (∀ (st : DexState) (x y : AssetId) (dy : Nat) (l : ℚ) (s t : Nat),
      get_liquidity st x y = (s, t) →
      st.tradingPairAllowed (canonical x y) = true →
      s ≠ 0 → t ≠ 0 → get_supply_amount s t dy ≠ 0 →
      (get_supply_amounts st [x, y] dy (some l) = .error .ExceedPriceImpactLimit
        ↔ l < ((dy : Nat) : ℚ) / (t : ℚ))) ∧
    get_target_amounts stS7 [2, 1] 10000 (some ((49 : ℚ)/100))
      = .error .ExceedPriceImpactLimit ∧
    get_target_amounts stS7 [2, 1] 10000 (some ((50 : ℚ)/100))
      = .ok [10000, 24874] := by
  refine ⟨?_, ?_, ?_, ?_⟩
  · intro st x y dx l s t hliq hallow hs ht hout
    simp only [get_target_amounts, List.length_cons, List.length_nil]
    norm_num
    simp only [target_hops, hliq, hallow, hs, ht, hout]
    norm_num [hs, ht, hout]
    by_cases hlt : l < ((get_target_amount s t dx : Nat) : ℚ) / (t : ℚ)
    · simp [hlt]
    · simp [hlt, target_hops, Except.map]
  · intro st x y dy l s t hliq hallow hs ht hin
    simp only [get_supply_amounts, List.length_cons, List.length_nil]
    norm_num
    simp only [supply_hops, hliq, hallow, List.headD, hs, ht, hin]
    norm_num [hs, ht, hin]
    by_cases hlt : l < ((dy : Nat) : ℚ) / (t : ℚ)
    · simp [hlt]
    · simp [hlt]
  · have h1 : get_liquidity stS7 2 1 = (10000, 50000) := by decide
    have h2 : get_target_amount 10000 50000 10000 = 24874 := by decide
    have h3 : stS7.tradingPairAllowed (canonical 2 1) = true := by decide
    simp only [get_target_amounts, target_hops, h1, h3, List.length_cons,
      List.length_nil]
    norm_num [h2]
  · have h1 : get_liquidity stS7 2 1 = (10000, 50000) := by decide
    have h2 : get_target_amount 10000 50000 10000 = 24874 := by decide
    have h3 : stS7.tradingPairAllowed (canonical 2 1) = true := by decide
    simp only [get_target_amounts, target_hops, h1, h3, List.length_cons,
      List.length_nil]
    norm_num [h2]
    rfl

/-- C5 witness: the general strict characterization applied on the S7
fixture at limit `49/100`, where the hop ratio is `24874/50000`. -/
theorem c5_price_impact_gate_witness :
    get_target_amounts stS7 [2, 1] 10000 (some ((49 : ℚ)/100))
      = .error .ExceedPriceImpactLimit :=
  (c5_price_impact_gate.1 stS7 2 1 10000 ((49 : ℚ)/100) 10000 50000
    (by decide) (by decide) (by decide) (by decide) (by decide)).mpr
    (by
      have h2 : get_target_amount 10000 50000 10000 = 24874 := by decide
      rw [h2]; norm_num)

/-- C6: `add_liquidity` on a first provision (`total_shares = 0`) consumes
exactly `(max_a, max_b)` and mints `max_a` share tokens; on a subsequent
provision it scales by the smaller of the ratios `max_a / r_a` and
`max_b / r_b`; concretely (S4), a first add of `(5e12, 1e12)` consumes
exactly those amounts and mints `5_000_000_000_000` shares, and a subsequent
add with limits `(50e12, 8e12)` against reserves `(5e12, 1e12)` consumes
exactly `(40e12, 8e12)` and mints `40_000_000_000_000` shares (so reserves
become `(5e12, 1e12)` and then `(45e12, 9e12)`). -/
theorem c6_add_liquidity :
    (∀ rA rB maxA maxB : Nat, maxA ≠ 0 → maxB ≠ 0 →
      add_liquidity_calc rA rB 0 maxA maxB = .ok (maxA, maxB, maxA)) ∧
    (∀ rA rB total maxA maxB : Nat, total ≠ 0 →
      add_liquidity_calc rA rB total maxA maxB =
        (if (⌊min ((maxA : ℚ) / (rA : ℚ)) ((maxB : ℚ) / (rB : ℚ)) * (rA : ℚ)⌋).toNat = 0
            ∨ (⌊min ((maxA : ℚ) / (rA : ℚ)) ((maxB : ℚ) / (rB : ℚ)) * (rB : ℚ)⌋).toNat = 0
            ∨ (⌊min ((maxA : ℚ) / (rA : ℚ)) ((maxB : ℚ) / (rB : ℚ)) * (total : ℚ)⌋).toNat = 0
         then .error .InvalidLiquidityIncrement
         else .ok ((⌊min ((maxA : ℚ) / (rA : ℚ)) ((maxB : ℚ) / (rB : ℚ)) * (rA : ℚ)⌋).toNat,
           (⌊min ((maxA : ℚ) / (rA : ℚ)) ((maxB : ℚ) / (rB : ℚ)) * (rB : ℚ)⌋).toNat,
           (⌊min ((maxA : ℚ) / (rA : ℚ)) ((maxB : ℚ) / (rB : ℚ)) * (total : ℚ)⌋).toNat))) ∧
    add_liquidity_calc 0 0 0 5000000000000 1000000000000
      = .ok (5000000000000, 1000000000000, 5000000000000) ∧
    add_liquidity_calc 5000000000000 1000000000000 5000000000000
        50000000000000 8000000000000
      = .ok (40000000000000, 8000000000000, 40000000000000) := by
  refine ⟨?_, ?_, ?_, ?_⟩
  · intro rA rB maxA maxB hA hB
    simp [add_liquidity_calc, hA, hB]
  · intro rA rB total maxA maxB htot
    simp [add_liquidity_calc, htot, min_def]
  · norm_num [add_liquidity_calc]
  · norm_num [add_liquidity_calc]
    exact ⟨rfl, rfl, rfl⟩

/-- C6 witness: a first provision at small concrete amounts. -/
theorem c6_add_liquidity_witness :
    add_liquidity_calc 7 9 0 3 4 = .ok (3, 4, 3) :=
  c6_add_liquidity.1 7 9 3 4 (by decide) (by decide)

/-! ## Ledger helper lemmas -/

/-- `saturating_add` is exact below the bound. -/
theorem satAdd_of_le {x y : Nat} (h : x + y ≤ MAXBAL) : satAdd x y = x + y := by
  unfold satAdd
  rw [if_pos h]

/-- Summing a point-updated balance map over a carrier set. -/
theorem sum_update_mem {S : Finset Nat} {k : Nat} (hk : k ∈ S) (f : Nat → Nat)
    (v : Nat) :
    ∑ x ∈ S, Function.update f k v x = v + ∑ x ∈ S.erase k, f x := by
  rw [Finset.sum_update_of_mem hk, Finset.sdiff_singleton_eq_erase]

/-- A single balance is at most the carrier-set total. -/
theorem single_le_sum' {S : Finset Nat} {k : Nat} (hk : k ∈ S) (f : Nat → Nat) :
    f k ≤ ∑ x ∈ S, f x :=
  Finset.single_le_sum (fun i _ => Nat.zero_le (f i)) hk

/-- Two distinct balances together are at most the carrier-set total. -/
theorem two_le_sum {S : Finset Nat} {o t : Nat} (ho : o ∈ S) (ht : t ∈ S)
    (hne : o ≠ t) (f : Nat → Nat) :
    f o + f t ≤ ∑ x ∈ S, f x := by
  have h1 : f t + ∑ x ∈ S.erase t, f x = ∑ x ∈ S, f x := Finset.add_sum_erase S f ht
  have ho' : o ∈ S.erase t := Finset.mem_erase.mpr ⟨hne, ho⟩
  have h2 := single_le_sum' ho' f
  omega

/-- The two balance writes of a transfer leave the carrier-set total
unchanged, including the self-transfer case, as long as the total stays
below the saturation bound. -/
theorem transfer_sum {S : Finset Nat} {owner target : Nat} (ho : owner ∈ S)
    (ht : target ∈ S) (f : Nat → Nat) (amount : Nat) (hle : amount ≤ f owner)
    (hbound : ∑ x ∈ S, f x ≤ MAXBAL) :
    ∑ x ∈ S, Function.update (Function.update f owner (f owner - amount)) target
        (satAdd (Function.update f owner (f owner - amount) target) amount) x
      = ∑ x ∈ S, f x := by
  by_cases hot : owner = target
  · subst hot
    rw [Function.update_same]
    have hfo : f owner ≤ ∑ x ∈ S, f x := single_le_sum' ho f
    have hsat : satAdd (f owner - amount) amount = f owner := by
      rw [satAdd_of_le (by omega)]
      omega
    rw [hsat, Function.update_idem, Function.update_eq_self]
  · have hb1t : Function.update f owner (f owner - amount) target = f target :=
      Function.update_noteq (fun hh => hot hh.symm) _ _
    have h2 : f owner + f target ≤ ∑ x ∈ S, f x := two_le_sum ho ht hot f
    have hsat : satAdd (f target) amount = f target + amount :=
      satAdd_of_le (by omega)
    rw [hb1t, hsat, sum_update_mem ht]
    have ho' : owner ∈ S.erase target := Finset.mem_erase.mpr ⟨hot, ho⟩
    rw [sum_update_mem ho']
    have e1 : f target + ∑ x ∈ S.erase target, f x = ∑ x ∈ S, f x :=
      Finset.add_sum_erase S f ht
    have e2 : f owner + ∑ x ∈ (S.erase target).erase owner, f x
        = ∑ x ∈ S.erase target, f x :=
      Finset.add_sum_erase _ f ho'
    omega

/-- Inversion of a successful `inner_transfer`: the guards passed and the
result state is the two-write balance update. -/
theorem transfer_ok_elim {st : Ledger} {id owner target amount : Nat}
    {st' : Ledger} (h : inner_transfer st id owner target amount = .ok st') :
    amount ≠ 0 ∧ amount ≤ st.balances id owner ∧
    st' = { st with
      balances := Function.update st.balances id
        (Function.update
          (Function.update (st.balances id) owner (st.balances id owner - amount))
          target
          (satAdd
            (Function.update (st.balances id) owner (st.balances id owner - amount)
              target)
            amount)) } := by
  unfold inner_transfer at h
  by_cases h0 : amount = 0
  · rw [if_pos h0] at h
    exact absurd h (by simp)
  · rw [if_neg h0] at h
    by_cases h1 : st.balances id owner < amount
    · rw [if_pos h1] at h
      exact absurd h (by simp)
    · rw [if_neg h1] at h
      simp only [Except.ok.injEq] at h
      exact ⟨h0, Nat.le_of_not_lt h1, h.symm⟩

/-- A successful transfer preserves every total supply and, for carrier sets
holding both parties, every per-asset conservation equation (for the
transferred asset this needs the supply to be representable, which a `u128`
supply always is). -/
theorem conserved_after_transfer {st st' : Ledger} {id owner target amount : Nat}
    {S : Finset Nat} (ho : owner ∈ S) (ht : target ∈ S)
    (hbound : st.totalSupply id ≤ MAXBAL)
    (h : inner_transfer st id owner target amount = .ok st') :
    st'.totalSupply = st.totalSupply ∧
    (∀ a, conserved st a S → conserved st' a S) := by
  obtain ⟨h0, hle, rfl⟩ := transfer_ok_elim h
  refine ⟨rfl, ?_⟩
  intro a hca
  unfold conserved at hca ⊢
  by_cases ha : a = id
  · subst ha
    simp only [Function.update_same]
    rw [hca]
    exact (transfer_sum ho ht _ amount hle (by omega)).symm
  · simp only [Function.update_noteq ha]
    exact hca

/-- Inversion of a successful `inner_mint`. -/
theorem mint_ok_elim {st st' : Ledger} {id owner amount : Nat}
    (h : inner_mint st id owner amount = .ok st') :
    (∃ i, st.assetInfos id = some i) ∧
    st' = { st with
      balances := Function.update st.balances id
        (Function.update (st.balances id) owner
          (satAdd (st.balances id owner) amount)),
      totalSupply := Function.update st.totalSupply id
        (satAdd (st.totalSupply id) amount) } := by
  unfold inner_mint at h
  cases heq : st.assetInfos id with
  | none => rw [heq] at h; exact absurd h (by simp)
  | some i =>
    rw [heq] at h
    simp only [Except.ok.injEq] at h
    exact ⟨⟨i, rfl⟩, h.symm⟩

/-- A mint that stays below the saturation bound adds exactly `amount` to
the supply, touches no other supply, and preserves conservation. -/
theorem conserved_after_mint {st st' : Ledger} {id owner amount : Nat}
    {S : Finset Nat} (ho : owner ∈ S)
    (hroom : st.totalSupply id + amount ≤ MAXBAL)
    (hcons : conserved st id S)
    (h : inner_mint st id owner amount = .ok st') :
    st'.totalSupply id = st.totalSupply id + amount ∧
    (∀ b, b ≠ id → st'.totalSupply b = st.totalSupply b) ∧
    (∀ a, conserved st a S → conserved st' a S) := by
  obtain ⟨-, rfl⟩ := mint_ok_elim h
  have hbal : st.balances id owner ≤ st.totalSupply id := by
    rw [hcons]; exact single_le_sum' ho _
  have hsupply : satAdd (st.totalSupply id) amount = st.totalSupply id + amount :=
    satAdd_of_le hroom
  refine ⟨by simp [Function.update_same, hsupply], ?_, ?_⟩
  · intro b hb
    simp [Function.update_noteq hb]
  · intro a hca
    unfold conserved at hca ⊢
    by_cases ha : a = id
    · subst ha
      simp only [Function.update_same]
      rw [hsupply, sum_update_mem ho, satAdd_of_le (by omega)]
      have e1 : st.balances a owner + ∑ x ∈ S.erase owner, st.balances a x
          = ∑ x ∈ S, st.balances a x := Finset.add_sum_erase S _ ho
      omega
    · simp only [Function.update_noteq ha]
      exact hca

/-- Inversion of a successful `inner_burn`. -/
theorem burn_ok_elim {st st' : Ledger} {id owner amount : Nat}
    (h : inner_burn st id owner amount = .ok st') :
    (∃ i, st.assetInfos id = some i) ∧ amount ≤ st.balances id owner ∧
    st' = { st with
      balances := Function.update st.balances id
        (Function.update (st.balances id) owner (st.balances id owner - amount)),
      totalSupply := Function.update st.totalSupply id
        (st.totalSupply id - amount) } := by
  unfold inner_burn at h
  cases heq : st.assetInfos id with
  | none => rw [heq] at h; exact absurd h (by simp)
  | some i =>
    rw [heq] at h
    by_cases h1 : st.balances id owner < amount
    · rw [if_pos h1] at h; exact absurd h (by simp)
    · rw [if_neg h1] at h
      simp only [Except.ok.injEq] at h
      exact ⟨⟨i, rfl⟩, Nat.le_of_not_lt h1, h.symm⟩

/-- A burn removes exactly `amount` from the supply (under conservation the
supply covers the burned balance, so the saturating subtraction is exact),
touches no other supply, and preserves conservation. -/
theorem conserved_after_burn {st st' : Ledger} {id owner amount : Nat}
    {S : Finset Nat} (ho : owner ∈ S) (hcons : conserved st id S)
    (h : inner_burn st id owner amount = .ok st') :
    st'.totalSupply id + amount = st.totalSupply id ∧
    (∀ b, b ≠ id → st'.totalSupply b = st.totalSupply b) ∧
    (∀ a, conserved st a S → conserved st' a S) := by
  obtain ⟨-, hle, rfl⟩ := burn_ok_elim h
  have hbal : st.balances id owner ≤ st.totalSupply id := by
    rw [hcons]; exact single_le_sum' ho _
  refine ⟨?_, ?_, ?_⟩
  · simp only [Function.update_same]
    omega
  · intro b hb
    simp [Function.update_noteq hb]
  · intro a hca
    unfold conserved at hca ⊢
    by_cases ha : a = id
    · subst ha
      simp only [Function.update_same]
      rw [sum_update_mem ho]
      have e1 : st.balances a owner + ∑ x ∈ S.erase owner, st.balances a x
          = ∑ x ∈ S, st.balances a x := Finset.add_sum_erase S _ ho
      omega
    · simp only [Function.update_noteq ha]
      exact hca

/-- Issuing against a fresh id (all balances zero, as for an id that was
never allocated) preserves every conservation equation. -/
theorem conserved_after_issue {st : Ledger} {owner total : Nat}
    {info : AssetInfo} {S : Finset Nat} (ho : owner ∈ S)
    (hfresh : ∀ x, st.balances st.nextAssetId x = 0) :
    ∀ a, conserved st a S → conserved (inner_issue st owner total info).1 a S := by
  intro a hca
  unfold conserved at hca ⊢
  unfold inner_issue
  by_cases ha : a = st.nextAssetId
  · subst ha
    simp only [Function.update_same]
    rw [sum_update_mem ho]
    have e0 : ∑ x ∈ S.erase owner, st.balances st.nextAssetId x = 0 :=
      Finset.sum_eq_zero (fun x _ => hfresh x)
    omega
  · simp only [Function.update_noteq ha]
    exact hca

/-- Inversion of a successful `inner_transfer_from`: the allowance covered
the amount, the inner transfer succeeded, and only that one allowance was
rewritten on top of the transfer's result. -/
theorem transfer_from_ok_elim {st st' : Ledger}
    {id owner spender target amount : Nat}
    (h : inner_transfer_from st id owner spender target amount = .ok st') :
    amount ≤ st.allowances id owner spender ∧
    ∃ st1, inner_transfer st id owner target amount = .ok st1 ∧
      st' = { st1 with
        allowances := setAllowance st1.allowances id owner spender
          (st.allowances id owner spender - amount) } := by
  unfold inner_transfer_from at h
  by_cases hal : st.allowances id owner spender < amount
  · rw [if_pos hal] at h
    exact absurd h (by simp)
  · rw [if_neg hal] at h
    cases heq : inner_transfer st id owner target amount with
    | error e => rw [heq] at h; exact absurd h (by simp)
    | ok st1 =>
      rw [heq] at h
      simp only [Except.ok.injEq] at h
      exact ⟨Nat.le_of_not_lt hal, st1, rfl, h.symm⟩

/-- Pointwise description of the allowance write. -/
theorem setAllowance_apply (al : Nat → Nat → Nat → Nat) (id o s v i o' s' : Nat) :
    setAllowance al id o s v i o' s' =
      if i = id ∧ o' = o ∧ s' = s then v else al i o' s' := by
  unfold setAllowance
  rcases eq_or_ne i id with rfl | hi
  · rw [Function.update_same]
    rcases eq_or_ne o' o with rfl | ho
    · rw [Function.update_same]
      rcases eq_or_ne s' s with rfl | hs
      · rw [Function.update_same]
        simp
      · rw [Function.update_noteq hs]
        simp [hs]
    · rw [Function.update_noteq ho]
      simp [ho]
  · rw [Function.update_noteq hi]
    simp [hi]

/-- `inner_transfer` only ever fails with `AmountZero` or `BalanceLow`. -/
theorem transfer_error_cases {st : Ledger} {id owner target amount : Nat}
    {e : AssetsError}
    (h : inner_transfer st id owner target amount = .error e) :
    e = .AmountZero ∨ e = .BalanceLow := by
  unfold inner_transfer at h
  by_cases h0 : amount = 0
  · rw [if_pos h0] at h
    simp only [Except.error.injEq] at h
    exact Or.inl h.symm
  · rw [if_neg h0] at h
    by_cases h1 : st.balances id owner < amount
    · rw [if_pos h1] at h
      simp only [Except.error.injEq] at h
      exact Or.inr h.symm
    · rw [if_neg h1] at h
      exact absurd h (by simp)

/-! ## Claims C4 and C7 - C10 -/

/-- C4 (counterexample): the claim asserts that every successful ledger
operation preserves `TotalSupply(a) = Σ Balance(a, ·)` and that mint
changes the supply by exactly `+amount`.  On the ledger `stC4`, where the
invariant holds with the whole supply `2^128 - 1` on account `0`,
`mint(0, account 1, 1)` succeeds but saturates the supply: the supply stays
`2^128 - 1` (not `+1`) while the balances now sum to `2^128`, so the
conservation equation is broken. -/
theorem c4_mint_saturation_counterexample :
    conserved stC4 0 ({0, 1} : Finset Nat) ∧
    isOkB (inner_mint stC4 0 1 1) = true ∧
    ¬ conserved (okOr stC4 (inner_mint stC4 0 1 1)) 0 ({0, 1} : Finset Nat) ∧
    (okOr stC4 (inner_mint stC4 0 1 1)).totalSupply 0 ≠ stC4.totalSupply 0 + 1 := by
  refine ⟨by unfold conserved; decide, by decide, by unfold conserved; decide,
    by decide⟩

/-- C4 (amended): supply conservation, per asset over any carrier set `S`
holding the accounts an operation touches.  Every successful `transfer`,
`approve`, `transfer_from`, `mint`, `burn` and `issue` (the latter on a
fresh id) preserves `TotalSupply(a) = Σ over S of Balance(a, ·)` for every
asset `a`, provided the touched supply is representable
(`≤ 2^128 - 1`, automatic for `u128`) and — for `mint` — provided the mint
does not hit the saturation bound (`TotalSupply + amount ≤ 2^128 - 1`).
Transfer, approve and transfer_from change no total supply at all; under
those provisos mint and burn are the only operations changing a supply, by
exactly `+amount` and `-amount` respectively. -/
theorem c4_supply_conservation (st : Ledger) (S : Finset Nat) (id amount : Nat) :
    (∀ owner target st', owner ∈ S → target ∈ S → st.totalSupply id ≤ MAXBAL →
      inner_transfer st id owner target amount = .ok st' →
      st'.totalSupply = st.totalSupply ∧
      (∀ a, conserved st a S → conserved st' a S)) ∧
    (∀ idA owner spender st', inner_approve st idA owner spender amount = .ok st' →
      st'.totalSupply = st.totalSupply ∧ st'.balances = st.balances ∧
      (∀ a, conserved st a S → conserved st' a S)) ∧
    (∀ owner spender target st', owner ∈ S → target ∈ S →
      st.totalSupply id ≤ MAXBAL →
      inner_transfer_from st id owner spender target amount = .ok st' →
      st'.totalSupply = st.totalSupply ∧
      (∀ a, conserved st a S → conserved st' a S)) ∧
    (∀ owner st', owner ∈ S → st.totalSupply id + amount ≤ MAXBAL →
      conserved st id S →
      inner_mint st id owner amount = .ok st' →
      st'.totalSupply id = st.totalSupply id + amount ∧
      (∀ b, b ≠ id → st'.totalSupply b = st.totalSupply b) ∧
      (∀ a, conserved st a S → conserved st' a S)) ∧
    (∀ owner st', owner ∈ S → conserved st id S →
      inner_burn st id owner amount = .ok st' →
      st'.totalSupply id + amount = st.totalSupply id ∧
      (∀ b, b ≠ id → st'.totalSupply b = st.totalSupply b) ∧
      (∀ a, conserved st a S → conserved st' a S)) ∧
    (∀ owner total info, owner ∈ S →
      (∀ x, st.balances st.nextAssetId x = 0) →
      (∀ a, conserved st a S → conserved (inner_issue st owner total info).1 a S)) := by
  refine ⟨?_, ?_, ?_, ?_, ?_, ?_⟩
  · intro owner target st' ho ht hb h
    exact conserved_after_transfer ho ht hb h
  · intro idA owner spender st' h
    unfold inner_approve at h
    simp only [Except.ok.injEq] at h
    subst h
    exact ⟨rfl, rfl, fun a hca => hca⟩
  · intro owner spender target st' ho ht hb h
    obtain ⟨hal, st1, htr, rfl⟩ := transfer_from_ok_elim h
    obtain ⟨hsupply, hcons⟩ := conserved_after_transfer ho ht hb htr
    exact ⟨hsupply, fun a hca => hcons a hca⟩
  · intro owner st' ho hroom hcons h
    exact conserved_after_mint ho hroom hcons h
  · intro owner st' ho hcons h
    exact conserved_after_burn ho hcons h
  · intro owner total info ho hfresh
    exact conserved_after_issue ho hfresh

/-- C4 witness: conservation of asset `0` over `{0, 1}` after a concrete
transfer on the sample ledger. -/
theorem c4_supply_conservation_witness :
    conserved (okOr stW (inner_transfer stW 0 0 1 3)) 0 ({0, 1} : Finset Nat) :=
  ((c4_supply_conservation stW {0, 1} 0 3).1 0 1
    (okOr stW (inner_transfer stW 0 0 1 3))
    (by decide) (by decide) (by decide) rfl).2 0 (by unfold conserved; decide)

/-- C7: `transfer_from` fails with `AllowanceLow` iff the allowance of
`(id, owner, spender)` is below `amount`; on success it performs exactly
the inner transfer's balance effect, decrements that one allowance by
`amount` and no other, and leaves supplies unchanged; and when the inner
transfer fails its error propagates — in which case (the result being an
error) no state is changed, i.e. the allowance is debited only if the
transfer succeeds. -/
theorem c7_transfer_from (st : Ledger) (id owner spender target amount : Nat) :
    (inner_transfer_from st id owner spender target amount = .error .AllowanceLow
      ↔ st.allowances id owner spender < amount) ∧
    (∀ st', inner_transfer_from st id owner spender target amount = .ok st' →
      st'.allowances id owner spender = st.allowances id owner spender - amount ∧
      amount ≤ st.allowances id owner spender ∧
      (∀ i o sp, (i, o, sp) ≠ (id, owner, spender) →
        st'.allowances i o sp = st.allowances i o sp) ∧
      Except.map (fun s => s.balances) (inner_transfer st id owner target amount)
        = .ok st'.balances ∧
      st'.totalSupply = st.totalSupply) ∧
    (∀ e, amount ≤ st.allowances id owner spender →
      inner_transfer st id owner target amount = .error e →
      inner_transfer_from st id owner spender target amount = .error e) := by
  refine ⟨?_, ?_, ?_⟩
  · constructor
    · intro h
      by_contra hal
      unfold inner_transfer_from at h
      rw [if_neg hal] at h
      cases heq : inner_transfer st id owner target amount with
      | error e =>
        rw [heq] at h
        simp only [Except.error.injEq] at h
        rcases transfer_error_cases heq with h2 | h2 <;> simp [h2] at h
      | ok st1 =>
        rw [heq] at h
        exact absurd h (by simp)
    · intro hal
      unfold inner_transfer_from
      rw [if_pos hal]
  · intro st' h
    obtain ⟨hal, st1, htr, rfl⟩ := transfer_from_ok_elim h
    obtain ⟨h0, hle, rfl⟩ := transfer_ok_elim htr
    refine ⟨?_, hal, ?_, ?_, rfl⟩
    · simp only [setAllowance_apply]
      simp
    · intro i o sp hne
      have hne' : ¬(i = id ∧ o = owner ∧ sp = spender) := by
        intro hh
        exact hne (by simp [hh.1, hh.2.1, hh.2.2])
      simp only [setAllowance_apply, hne', if_false]
    · rw [htr]
      rfl
  · intro e hal htr
    unfold inner_transfer_from
    rw [if_neg (Nat.not_lt_of_le hal), htr]

/-- C7 witness: the allowance decrement after a concrete successful
`transfer_from` on the sample ledger. -/
theorem c7_transfer_from_witness :
    (okOr stW (inner_transfer_from stW 0 0 2 1 3)).allowances 0 0 2
      = stW.allowances 0 0 2 - 3 :=
  ((c7_transfer_from stW 0 0 2 1 3).2.1
    (okOr stW (inner_transfer_from stW 0 0 2 1 3)) rfl).1

/-- C8 (counterexample): the claim asserts that a successful transfer
increments the target's balance by exactly `amount`.  On `stC8` — a
reachable ledger where account `1` already holds `2^128 - 1` of asset `0`
and account `0` holds `1` — transferring `1` from account `0` to account
`1` succeeds, but the target balance saturates at `2^128 - 1` instead of
becoming `2^128`. -/
theorem c8_saturation_counterexample :
    isOkB (inner_transfer stC8 0 0 1 1) = true ∧
    (okOr stC8 (inner_transfer stC8 0 0 1 1)).balances 0 1 = MAXBAL ∧
    stC8.balances 0 1 + 1 ≠ MAXBAL := by
  refine ⟨by decide, by decide, by decide⟩

/-- C8 (amended): `transfer` fails with `AmountZero` when `amount = 0` and
with `BalanceLow` when the owner's balance is below `amount` (an error
changes no state); otherwise it decrements the owner's balance by exactly
`amount` and increments the target's balance by exactly `amount` provided
the increment stays below the `u128` saturation bound (otherwise the target
balance saturates at `2^128 - 1`); and every self-transfer with
`0 < amount ≤ balance` succeeds and returns the state unchanged (the
balance bound `≤ 2^128 - 1` is automatic for `u128` values). -/
theorem c8_transfer (st : Ledger) (id owner target amount : Nat) :
    (amount = 0 → inner_transfer st id owner target amount = .error .AmountZero) ∧
    (amount ≠ 0 → st.balances id owner < amount →
      inner_transfer st id owner target amount = .error .BalanceLow) ∧
    (∀ st', owner ≠ target →
      inner_transfer st id owner target amount = .ok st' →
      st'.balances id owner = st.balances id owner - amount ∧
      (st.balances id target + amount ≤ MAXBAL →
        st'.balances id target = st.balances id target + amount)) ∧
    (amount ≠ 0 → amount ≤ st.balances id owner →
      st.balances id owner ≤ MAXBAL →
      inner_transfer st id owner owner amount = .ok st) := by
  refine ⟨?_, ?_, ?_, ?_⟩
  · intro h0
    unfold inner_transfer
    rw [if_pos h0]
  · intro h0 h1
    unfold inner_transfer
    rw [if_neg h0, if_pos h1]
  · intro st' hne h
    obtain ⟨h0, hle, rfl⟩ := transfer_ok_elim h
    constructor
    · simp only [Function.update_same]
      rw [Function.update_noteq hne, Function.update_same]
    · intro hbound
      simp only [Function.update_same]
      rw [Function.update_noteq (fun hh => hne hh.symm)]
      exact satAdd_of_le hbound
  · intro h0 hle hbound
    unfold inner_transfer
    rw [if_neg h0, if_neg (Nat.not_lt_of_le hle)]
    have hb2 : Function.update
        (Function.update (st.balances id) owner (st.balances id owner - amount))
        owner
        (satAdd
          (Function.update (st.balances id) owner (st.balances id owner - amount)
            owner) amount) = st.balances id := by
      rw [Function.update_same, satAdd_of_le (by omega), Function.update_idem]
      have : st.balances id owner - amount + amount = st.balances id owner := by
        omega
      rw [this, Function.update_eq_self]
    rw [hb2, Function.update_eq_self]

/-- C8 witness: the two balance equations after a concrete successful
transfer on the sample ledger. -/
theorem c8_transfer_witness :
    (okOr stW (inner_transfer stW 0 0 1 3)).balances 0 0 = stW.balances 0 0 - 3 ∧
    (okOr stW (inner_transfer stW 0 0 1 3)).balances 0 1 = stW.balances 0 1 + 3 := by
  have h := (c8_transfer stW 0 0 1 3).2.2.1 (okOr stW (inner_transfer stW 0 0 1 3))
    (by decide) rfl
  exact ⟨h.1, h.2 (by decide)⟩

/-- C9: `approve` always succeeds, sets exactly the allowance of
`(id, owner, spender)` to `amount` (overwriting, with no balance check),
and leaves every other allowance, all balances and all total supplies
unchanged. -/
theorem c9_approve (st : Ledger) (id owner spender amount : Nat) :
    Except.map (fun s => s.allowances id owner spender)
      (inner_approve st id owner spender amount) = .ok amount ∧
    (∀ i o sp, (i, o, sp) ≠ (id, owner, spender) →
      Except.map (fun s => s.allowances i o sp)
        (inner_approve st id owner spender amount) = .ok (st.allowances i o sp)) ∧
    Except.map (fun s => s.balances) (inner_approve st id owner spender amount)
      = .ok st.balances ∧
    Except.map (fun s => s.totalSupply) (inner_approve st id owner spender amount)
      = .ok st.totalSupply := by
  refine ⟨?_, ?_, rfl, rfl⟩
  · unfold inner_approve
    simp only [Except.map]
    rw [setAllowance_apply]
    simp
  · intro i o sp hne
    unfold inner_approve
    simp only [Except.map]
    rw [setAllowance_apply]
    have : ¬(i = id ∧ o = owner ∧ sp = spender) := by
      intro hh
      exact hne (by simp [hh.1, hh.2.1, hh.2.2])
    rw [if_neg this]

/-- C9 witness: an unrelated allowance is untouched by a concrete approve. -/
theorem c9_approve_witness :
    Except.map (fun s => s.allowances 0 1 2) (inner_approve stW 0 0 2 7)
      = .ok (stW.allowances 0 1 2) :=
  (c9_approve stW 0 0 2 7).2.1 0 1 2 (by decide)

/-- C10: in `transfer_from` the allowance is checked before the amount and
the balance: whenever the allowance is below `amount` the error is
`AllowanceLow` (whatever the owner's balance), and whenever `amount = 0`
the allowance check passes (`0` never exceeds it, in any state) and the
call fails with `AmountZero`; both failures change no state. -/
theorem c10_check_order (st : Ledger) (id owner spender target amount : Nat) :
    (st.allowances id owner spender < amount →
      inner_transfer_from st id owner spender target amount = .error .AllowanceLow) ∧
    (amount = 0 →
      inner_transfer_from st id owner spender target amount = .error .AmountZero) := by
  constructor
  · intro hal
    unfold inner_transfer_from
    rw [if_pos hal]
  · intro h0
    subst h0
    unfold inner_transfer_from
    rw [if_neg (by omega)]
    unfold inner_transfer
    rw [if_pos rfl]

/-- C10 witness: a zero-amount `transfer_from` fails `AmountZero` on the
sample ledger even though the allowance is positive. -/
theorem c10_check_order_witness :
    inner_transfer_from stW 0 0 2 1 0 = .error .AmountZero :=
  (c10_check_order stW 0 0 2 1 0).2 rfl

end Zenlink
